import Mathlib

/-!
Verification development for the portfolio stress-testing engine.

The Python source (economic_scenarios.py, monte_carlo.py, risk_metrics.py,
utils/time_series.py) is shallowly embedded here: prices and returns are
exact rationals (the Python code uses binary floats; every claim checked
here is about structure, control flow or exact algebra, not rounding),
pandas tables become lists of named columns, numpy routines that raise
become `Except`-valued functions, and the two sources of irrational or
nondeterministic values (square roots and normal random draws) become
explicit function parameters, so that every definition stays executable.
-/

/-! ## numpy / pandas primitives -/

/-- Mean of a list of rationals, `np.mean`.  numpy on an empty array emits a
warning and yields NaN without raising; rational division by zero yields 0
here, standing in for that NaN (no claim inspects the empty-mean value). -/
def npMean (xs : List ℚ) : ℚ := xs.sum / (xs.length : ℚ)

/-- Core of `np.percentile` with the default linear interpolation between
order statistics: sort ascending, take the fractional order statistic at
rank `p / 100 * (n - 1)`.  Callers guarantee `xs` nonempty and
`0 ≤ p ≤ 100`; the `Except` wrapper `npPercentile` checks both. -/
def percentileQ (xs : List ℚ) (p : ℚ) : ℚ :=
  let sorted := xs.insertionSort (· ≤ ·)
  let rank : ℚ := p / 100 * ((sorted.length : ℚ) - 1)
  let i : ℕ := (Int.floor rank).toNat
  let frac : ℚ := rank - (Int.floor rank : ℚ)
  let lo := sorted.getD i 0
  let hi := sorted.getD (i + 1) lo
  lo + frac * (hi - lo)

/-- `np.percentile`, which raises on an empty array and on a percentile
outside `[0, 100]`. -/
def npPercentile (xs : List ℚ) (p : ℚ) : Except String ℚ :=
  if xs.length = 0 then
    .error "IndexError: cannot do a non-empty take from an empty axes"
  else if p < 0 ∨ 100 < p then
    .error "ValueError: percentiles must be in the range 0 to 100"
  else
    .ok (percentileQ xs p)

/-- Population standard deviation `np.std` (ddof = 0).  The square root is
not rational-valued, so the numeric square-root routine is passed in as
`sqrtQ`; no claim checked here depends on its values. -/
def npStd (sqrtQ : ℚ → ℚ) (xs : List ℚ) : ℚ :=
  sqrtQ (npMean (xs.map (fun x => (x - npMean xs) ^ 2)))

/-- Sample covariance of two equally long columns, `pandas.DataFrame.cov`
(ddof = 1).  A length-one column divides by zero, standing in for the NaN
pandas produces there. -/
def sampleCov (xs ys : List ℚ) : ℚ :=
  let mx := npMean xs
  let my := npMean ys
  ((List.zipWith (fun a b => (a - mx) * (b - my)) xs ys).sum) / ((xs.length : ℚ) - 1)

/-- Bias-adjusted sample skewness, `pandas.Series.skew`:
`n / ((n-1)(n-2)) * sum(((x - mean) / s)^3)` with `s` the sample standard
deviation (ddof = 1). -/
def pdSkew (sqrtQ : ℚ → ℚ) (xs : List ℚ) : ℚ :=
  let n : ℚ := xs.length
  let m := npMean xs
  let s := sqrtQ (((xs.map (fun x => (x - m) ^ 2)).sum) / (n - 1))
  (n / ((n - 1) * (n - 2))) * ((xs.map (fun x => ((x - m) / s) ^ 3)).sum)

/-- Bias-adjusted excess kurtosis, `pandas.Series.kurtosis`:
`n(n+1) / ((n-1)(n-2)(n-3)) * sum(((x - mean) / s)^4) - 3(n-1)^2 / ((n-2)(n-3))`. -/
def pdKurt (sqrtQ : ℚ → ℚ) (xs : List ℚ) : ℚ :=
  let n : ℚ := xs.length
  let m := npMean xs
  let s := sqrtQ (((xs.map (fun x => (x - m) ^ 2)).sum) / (n - 1))
  (n * (n + 1) / ((n - 1) * (n - 2) * (n - 3))) * ((xs.map (fun x => ((x - m) / s) ^ 4)).sum)
    - 3 * (n - 1) ^ 2 / ((n - 2) * (n - 3))

/-- `pandas.DataFrame.pct_change` on one column followed by dropping the
first (undefined) entry: consecutive simple returns `p[k] / p[k-1] - 1`. -/
def pct_change : List ℚ → List ℚ
  | [] => []
  | [_] => []
  | p0 :: p1 :: rest => (p1 / p0 - 1) :: pct_change (p1 :: rest)

/-! ## economic_scenarios.py -/

/-- One entry of the scenario catalog: the `ECONOMIC_SCENARIOS` values are
dicts with exactly these keys, `impact_factor` being a nested dict from
sector name to an annualized return shift. -/
structure Scenario where
  description : String
  returns_adjustment : ℚ
  volatility_adjustment : ℚ
  correlation_adjustment : ℚ
  drawdown_adjustment : ℚ
  impact_factor : List (String × ℚ)
deriving DecidableEq

/-- Dict lookup with a default, `m.get(k, d)` on a string-keyed dict of
rationals. -/
def lookupQ (m : List (String × ℚ)) (k : String) (d : ℚ) : ℚ :=
  ((m.find? (fun e => e.1 == k)).map (fun e => e.2)).getD d

/-- Dict lookup with a default on a string-keyed dict of strings. -/
def lookupStr (m : List (String × String)) (k : String) (d : String) : String :=
  ((m.find? (fun e => e.1 == k)).map (fun e => e.2)).getD d

def scenarioNormalMarket : Scenario :=
  { description := "Base case scenario with normal market conditions"
    returns_adjustment := 0
    volatility_adjustment := 1
    correlation_adjustment := 0
    drawdown_adjustment := 0
    impact_factor :=
      [("Technology", 0), ("Financial", 0), ("Healthcare", 0), ("Energy", 0),
       ("Consumer", 0), ("Industrial", 0), ("Materials", 0), ("Utilities", 0),
       ("Real Estate", 0)] }

def scenarioMarketCrash : Scenario :=
  { description := "Severe and sudden market downturn across all sectors"
    returns_adjustment := -1/4
    volatility_adjustment := 5/2
    correlation_adjustment := 3/10
    drawdown_adjustment := 3/20
    impact_factor :=
      [("Technology", -3/10), ("Financial", -7/20), ("Healthcare", -1/5),
       ("Energy", -1/4), ("Consumer", -1/4), ("Industrial", -3/10),
       ("Materials", -1/4), ("Utilities", -3/20), ("Real Estate", -3/10)] }

def scenarioRecession : Scenario :=
  { description := "Economic contraction with prolonged negative growth"
    returns_adjustment := -3/20
    volatility_adjustment := 9/5
    correlation_adjustment := 1/5
    drawdown_adjustment := 1/10
    impact_factor :=
      [("Technology", -1/5), ("Financial", -1/4), ("Healthcare", -1/10),
       ("Energy", -1/5), ("Consumer", -1/5), ("Industrial", -1/4),
       ("Materials", -1/5), ("Utilities", -1/10), ("Real Estate", -1/4)] }

def scenarioInflationSurge : Scenario :=
  { description := "Rapid increase in inflation rates affecting purchasing power"
    returns_adjustment := -1/20
    volatility_adjustment := 7/5
    correlation_adjustment := 1/10
    drawdown_adjustment := 1/20
    impact_factor :=
      [("Technology", -3/20), ("Financial", 1/20), ("Healthcare", -1/10),
       ("Energy", 1/10), ("Consumer", -1/5), ("Industrial", -1/10),
       ("Materials", 1/20), ("Utilities", -1/20), ("Real Estate", -1/5)] }

def scenarioTechBubbleBurst : Scenario :=
  { description := "Sharp correction in technology sector valuations"
    returns_adjustment := -1/10
    volatility_adjustment := 8/5
    correlation_adjustment := 1/10
    drawdown_adjustment := 2/25
    impact_factor :=
      [("Technology", -2/5), ("Financial", -3/20), ("Healthcare", -1/20),
       ("Energy", 0), ("Consumer", -1/10), ("Industrial", -1/10),
       ("Materials", -1/20), ("Utilities", 1/20), ("Real Estate", -1/10)] }

def scenarioPandemic : Scenario :=
  { description := "Global health crisis affecting economic activity"
    returns_adjustment := -1/5
    volatility_adjustment := 11/5
    correlation_adjustment := 1/4
    drawdown_adjustment := 3/25
    impact_factor :=
      [("Technology", 1/10), ("Financial", -1/4), ("Healthcare", 3/20),
       ("Energy", -3/10), ("Consumer", -1/5), ("Industrial", -1/4),
       ("Materials", -1/5), ("Utilities", -1/10), ("Real Estate", -1/4)] }

/-- The module-level `ECONOMIC_SCENARIOS` dict, key by scenario name. -/
def ECONOMIC_SCENARIOS : List (String × Scenario) :=
  [("Normal Market", scenarioNormalMarket),
   ("Market Crash", scenarioMarketCrash),
   ("Recession", scenarioRecession),
   ("Inflation Surge", scenarioInflationSurge),
   ("Tech Bubble Burst", scenarioTechBubbleBurst),
   ("Pandemic", scenarioPandemic)]

/-- The module-level `SECTOR_MAPPING` dict from ticker to sector label. -/
def SECTOR_MAPPING : List (String × String) :=
  [("AAPL", "Technology"), ("MSFT", "Technology"), ("GOOGL", "Technology"),
   ("GOOG", "Technology"), ("META", "Technology"), ("AMZN", "Technology"),
   ("NVDA", "Technology"), ("ADBE", "Technology"), ("CRM", "Technology"),
   ("INTC", "Technology"), ("CSCO", "Technology"), ("AMD", "Technology"),
   ("JPM", "Financial"), ("BAC", "Financial"), ("WFC", "Financial"),
   ("C", "Financial"), ("GS", "Financial"), ("MS", "Financial"),
   ("BLK", "Financial"), ("AXP", "Financial"), ("V", "Financial"),
   ("MA", "Financial"), ("BRK-A", "Financial"), ("BRK-B", "Financial"),
   ("JNJ", "Healthcare"), ("PFE", "Healthcare"), ("MRK", "Healthcare"),
   ("ABT", "Healthcare"), ("UNH", "Healthcare"), ("ABBV", "Healthcare"),
   ("TMO", "Healthcare"), ("LLY", "Healthcare"),
   ("XOM", "Energy"), ("CVX", "Energy"), ("COP", "Energy"), ("EOG", "Energy"),
   ("SLB", "Energy"), ("BP", "Energy"), ("RDS-A", "Energy"), ("TOT", "Energy"),
   ("PG", "Consumer"), ("KO", "Consumer"), ("PEP", "Consumer"), ("WMT", "Consumer"),
   ("COST", "Consumer"), ("MCD", "Consumer"), ("NKE", "Consumer"), ("SBUX", "Consumer"),
   ("GE", "Industrial"), ("HON", "Industrial"), ("MMM", "Industrial"),
   ("BA", "Industrial"), ("CAT", "Industrial"), ("DE", "Industrial"),
   ("UPS", "Industrial"), ("FDX", "Industrial"),
   ("BBRI.JK", "Financial"), ("BBCA.JK", "Financial"), ("BMRI.JK", "Financial"),
   ("BBNI.JK", "Financial"), ("BRIS.JK", "Financial"), ("BJTM.JK", "Financial"),
   ("BTPS.JK", "Financial"),
   ("UNVR.JK", "Consumer"), ("ICBP.JK", "Consumer"), ("INDF.JK", "Consumer"),
   ("KLBF.JK", "Consumer"), ("SIDO.JK", "Consumer"), ("MYOR.JK", "Consumer"),
   ("GGRM.JK", "Consumer"), ("HMSP.JK", "Consumer"),
   ("TLKM.JK", "Technology"), ("ISAT.JK", "Technology"), ("EXCL.JK", "Technology"),
   ("ADRO.JK", "Energy"), ("PTBA.JK", "Energy"), ("ITMG.JK", "Energy"),
   ("MEDC.JK", "Energy"),
   ("INCO.JK", "Materials"), ("ANTM.JK", "Materials"), ("TINS.JK", "Materials"),
   ("SMGR.JK", "Industrial"), ("WIKA.JK", "Industrial"), ("WSKT.JK", "Industrial"),
   ("PTPP.JK", "Industrial"),
   ("BSDE.JK", "Real Estate"), ("CTRA.JK", "Real Estate"), ("PWON.JK", "Real Estate"),
   ("DEFAULT", "Unknown")]

/-- `get_symbol_sector`: `SECTOR_MAPPING.get(symbol, SECTOR_MAPPING["DEFAULT"])`. -/
def get_symbol_sector (symbol : String) : String :=
  lookupStr SECTOR_MAPPING symbol (lookupStr SECTOR_MAPPING "DEFAULT" "Unknown")

/-- A pandas DataFrame of prices with every cell present: a date index
plus named columns of cell values (dates as abstract numeric keys).  This
is the no-missing-cells restriction of the price-table domain; the
statements proved over it have domains without missing cells (a concrete
fully-present input, or a table of positive prices).  `PriceTable` below
carries the full domain in which cells may also be missing (pandas NaN),
and `apply_economic_scenario_opt` models the transform there. -/
structure Table where
  dates : List ℕ
  cols : List (String × List ℚ)
deriving DecidableEq

/-- The price-reconstruction loop of `apply_economic_scenario` from its
second iteration on: starting from the previous adjusted price, each date
gets `prev * (1 + adjusted return)`. -/
def reconstructFrom (prev : ℚ) : List ℚ → List ℚ
  | [] => []
  | r :: rest => prev * (1 + r) :: reconstructFrom (prev * (1 + r)) rest

/-- The whole reconstruction loop over the return index: iteration `i = 0`
writes `start_price` (the original price on the first return date) and
ignores that date's adjusted return; later iterations compound. -/
def reconstructPrices (start_price : ℚ) (rs : List ℚ) : List ℚ :=
  match rs with
  | [] => []
  | _ :: rest => start_price :: reconstructFrom start_price rest

/-- One column of `apply_economic_scenario`: returns are rescaled by the
volatility adjustment and shifted by the combined annualized adjustment
over 252, then prices are rebuilt; the first table row is left untouched
(it is not a return date). -/
def adjustedColumn (vol_adj total_returns_adj : ℚ) (ps : List ℚ) : List ℚ :=
  match ps with
  | [] => []
  | [p] => [p]
  | p0 :: p1 :: rest =>
    let adjusted_returns :=
      (pct_change (p0 :: p1 :: rest)).map (fun r => r * vol_adj + total_returns_adj / 252)
    p0 :: reconstructPrices p1 adjusted_returns

/-- `apply_economic_scenario(historical_data, scenario_params)` on a table
with no missing cells.  The code copies the table, then for each column
looks up the sector impact, adjusts the return series and rebuilds prices
in place on the copy.  On a complete table the return index after
`pct_change().dropna()` is the set of rows past the first, so it is empty
— making `returns.index[0]` raise an IndexError — exactly when the table
has columns but fewer than two rows.  With missing cells the return index
can be empty on larger tables too; `apply_economic_scenario_opt` below
models the same source function on that full domain. -/
def apply_economic_scenario (historical_data : Table) (scenario_params : Scenario) :
    Except String Table :=
  if historical_data.cols ≠ [] ∧ historical_data.dates.length < 2 then
    .error "IndexError: index 0 is out of bounds for axis 0 with size 0"
  else
    .ok { dates := historical_data.dates
          cols := historical_data.cols.map (fun col =>
            let sector := get_symbol_sector col.1
            let sector_impact := lookupQ scenario_params.impact_factor sector 0
            let total_returns_adj := scenario_params.returns_adjustment + sector_impact
            (col.1, adjustedColumn scenario_params.volatility_adjustment total_returns_adj col.2)) }

/-- The spec's full price-table domain: a date index plus named columns
whose cells either hold a price or are missing (pandas NaN). -/
structure PriceTable where
  dates : List ℕ
  cols : List (String × List (Option ℚ))
deriving DecidableEq

/-- Forward fill on a column that may have missing cells: each missing
cell takes the last value seen, leading missing cells stay missing.
`pct_change`'s default `fill_method` pads the series this way before
differencing. -/
def ffillFrom (acc : Option ℚ) : List (Option ℚ) → List (Option ℚ)
  | [] => []
  | c :: rest =>
    let cur := match c with
      | some v => some v
      | none => acc
    cur :: ffillFrom cur rest

/-- `Series.pct_change()` on a column with possibly missing cells: the
series is forward-filled, then entry `i` is `q[i] / q[i-1] - 1` when both
padded values are present and missing otherwise; entry 0 is always
missing.  (The pad rule only matters for internal gaps — every statement
proved here exercises only complete columns, fully-missing columns and
leading gaps, on which padding and no-fill agree.) -/
def pct_change_opt (ps : List (Option ℚ)) : List (Option ℚ) :=
  let padded := ffillFrom none ps
  match padded with
  | [] => []
  | _ :: _ =>
    none :: (padded.zip padded.tail).map (fun pc =>
      match pc.1, pc.2 with
      | some a, some b => some (b / a - 1)
      | _, _ => none)

/-- The return index after `pct_change().dropna()`: the row positions at
which every column's return is present (`dropna()` drops a row when ANY
column holds NaN there, so one fully-missing column empties the whole
index; with at least one column, row 0 always drops).  With no columns
nothing drops and every row survives, as in pandas. -/
def returnIndexOpt (cols : List (String × List (Option ℚ))) (nrows : ℕ) : List ℕ :=
  (List.range nrows).filter (fun i =>
    decide (∀ c ∈ cols, (pct_change_opt c.2).getD i none ≠ none))

/-- `returns[column] * vol_adj + total_returns_adj / 252` with NaN
propagation: a missing return stays missing. -/
def adjustedReturnsOpt (vol_adj total_returns_adj : ℚ) (rets : List (Option ℚ)) :
    List (Option ℚ) :=
  rets.map (fun r => r.map (fun v => v * vol_adj + total_returns_adj / 252))

/-- One iteration `i ≥ 1` of the reconstruction loop: read the price
written at the previous return-index row, write `prev * (1 + adjusted
return)` at row `j` (missing values propagate as NaN arithmetic does),
and remember `j` as the new previous row. -/
def reconstructStep (adjrets : List (Option ℚ)) (st : List (Option ℚ) × ℕ) (j : ℕ) :
    List (Option ℚ) × ℕ :=
  let prev_price := st.1.getD st.2 none
  let v : Option ℚ :=
    match prev_price, adjrets.getD j none with
    | some p, some r => some (p * (1 + r))
    | _, _ => none
  (st.1.set j v, j)

/-- The reconstruction loop of `apply_economic_scenario` over the shared
return index, on a column with possibly missing cells: iteration 0 writes
`start_price` — the column's own original value at the first return-index
row — back at that row, and later iterations compound from the previously
written price.  Writes use `List.set`, which targets existing positions
only, as `.loc` on existing labels does; rows outside the return index
keep their original cells, missing ones included. -/
def reconstructOpt (cells adjrets : List (Option ℚ)) : List ℕ → List (Option ℚ)
  | [] => cells
  | i0 :: rest =>
    let start_price := cells.getD i0 none
    (rest.foldl (reconstructStep adjrets) (cells.set i0 start_price, i0)).1

/-- `apply_economic_scenario(historical_data, scenario_params)` on the
full price-table domain, missing cells included: compute the return index
after `pct_change().dropna()`; when the table has columns but that index
is empty — fewer than two rows, or any fully-missing column, or a column
whose first present price sits in the last row — the first loop iteration
raises an IndexError at `returns.index[0]`; otherwise every column is
rebuilt along the shared return index and the copy is returned. -/
def apply_economic_scenario_opt (historical_data : PriceTable)
    (scenario_params : Scenario) : Except String PriceTable :=
  let idxs := returnIndexOpt historical_data.cols historical_data.dates.length
  if historical_data.cols ≠ [] ∧ idxs = [] then
    .error "IndexError: index 0 is out of bounds for axis 0 with size 0"
  else
    .ok { dates := historical_data.dates
          cols := historical_data.cols.map (fun col =>
            let sector := get_symbol_sector col.1
            let sector_impact := lookupQ scenario_params.impact_factor sector 0
            let total_returns_adj := scenario_params.returns_adjustment + sector_impact
            (col.1, reconstructOpt col.2
              (adjustedReturnsOpt scenario_params.volatility_adjustment total_returns_adj
                (pct_change_opt col.2))
              idxs)) }

/-- The `custom_adjustments` argument of `generate_custom_scenario`,
restricted to values of the same shape as the catalog entries they
override (a number for the four scalar parameters, a nested dict for
`impact_factor`), which is the shape the function is written for. -/
structure CustomAdjustments where
  returns_adjustment : Option ℚ
  volatility_adjustment : Option ℚ
  correlation_adjustment : Option ℚ
  drawdown_adjustment : Option ℚ
  impact_factor : Option (List (String × ℚ))
deriving DecidableEq

/-- Python truthiness of the adjustments dict: `not custom_adjustments`
holds for `None` (modelled by `Option.none` at the call) and for the empty
dict. -/
def CustomAdjustments.isEmpty (a : CustomAdjustments) : Bool :=
  a.returns_adjustment.isNone && a.volatility_adjustment.isNone &&
  a.correlation_adjustment.isNone && a.drawdown_adjustment.isNone &&
  a.impact_factor.isNone

/-- The nested-dict branch of `generate_custom_scenario`: each subkey that
already exists in the impact dict is overwritten with the custom value. -/
def updateImpact (impact upd : List (String × ℚ)) : List (String × ℚ) :=
  upd.foldl (fun acc kv =>
    if (acc.find? (fun e => e.1 == kv.1)).isSome then
      acc.map (fun e => if e.1 == kv.1 then (e.1, kv.2) else e)
    else acc) impact

/-- `generate_custom_scenario(base_scenario, custom_adjustments)`.  The
Python code takes a SHALLOW `.copy()` of the catalog entry, so the copy's
`impact_factor` is the very dict stored in `ECONOMIC_SCENARIOS`; nested
writes through the copy mutate the module-level catalog.  The embedding
makes that observable by returning, next to the custom scenario, the
catalog value as it stands after the call. -/
def generate_custom_scenario (catalog : List (String × Scenario)) (base_scenario : String)
    (custom_adjustments : Option CustomAdjustments) :
    Except String (Scenario × List (String × Scenario)) :=
  match catalog.find? (fun e => e.1 == base_scenario) with
  | none => .error ("Base scenario " ++ base_scenario ++ " not found")
  | some entry =>
    match custom_adjustments with
    | none => .ok (entry.2, catalog)
    | some adj =>
      if adj.isEmpty then .ok (entry.2, catalog)
      else
        let newImpact :=
          match adj.impact_factor with
          | none => entry.2.impact_factor
          | some upd => updateImpact entry.2.impact_factor upd
        let custom : Scenario :=
          { description := entry.2.description
            returns_adjustment := adj.returns_adjustment.getD entry.2.returns_adjustment
            volatility_adjustment := adj.volatility_adjustment.getD entry.2.volatility_adjustment
            correlation_adjustment := adj.correlation_adjustment.getD entry.2.correlation_adjustment
            drawdown_adjustment := adj.drawdown_adjustment.getD entry.2.drawdown_adjustment
            impact_factor := newImpact }
        let catalogAfter := catalog.map (fun e =>
          if e.1 == base_scenario then (e.1, { e.2 with impact_factor := newImpact }) else e)
        .ok (custom, catalogAfter)

/-- The impact factor recorded in a catalog for one scenario and sector
(`None` when the scenario name is absent): the observation the
catalog-immutability claim is about. -/
def catalogImpact (catalog : List (String × Scenario)) (name sector : String) : Option ℚ :=
  (catalog.find? (fun e => e.1 == name)).map (fun e => lookupQ e.2.impact_factor sector 0)

/-! ## monte_carlo.py -/

/-- The ways `run_monte_carlo_simulation` aborts: its one explicit raise
(`ValueError: No valid weights could be calculated`), and the numpy errors
it runs into without validating its inputs — drawing a normal sample of
negative size, indexing `[-1]` into an empty cumulative-return array
(time horizon 0), and reducing (`np.percentile` along axis 0) over a
zero-size simulation stack. -/
inductive MCError where
  | noValidWeights
  | negativeDimensions
  | emptyIndex
  | zeroSizeReduce
deriving DecidableEq

/-- The result dict of `run_monte_carlo_simulation`. -/
structure Ensemble where
  simulations : List (List ℚ)
  final_returns : List ℚ
  max_drawdowns : List ℚ
  percentiles : List (ℚ × List ℚ)
  time_horizon : ℤ
  mean_return : ℚ
  volatility : ℚ
  weights : List ℚ
  assets : List String
deriving DecidableEq

/-- `historical_data.pct_change().dropna()`: with no missing cells only the
first row drops, so columnwise simple returns. -/
def pct_change_table (cols : List (String × List ℚ)) : List (String × List ℚ) :=
  cols.map (fun c => (c.1, pct_change c.2))

/-- `returns[[col for col in returns.columns if col in symbols]]`: the
return columns restricted to portfolio symbols, in table order. -/
def portfolioReturns (historical : List (String × List ℚ)) (portfolio : List (String × ℚ)) :
    List (String × List ℚ) :=
  (pct_change_table historical).filter
    (fun c => decide (c.1 ∈ portfolio.map (fun r => r.1)))

/-- `missing_symbols`: allocation symbols with no column in the returns
table; when nonempty the code prints a warning naming them. -/
def missingSymbols (historical : List (String × List ℚ)) (portfolio : List (String × ℚ)) :
    List String :=
  (portfolio.map (fun r => r.1)).filter
    (fun s => decide (s ∉ (portfolioReturns historical portfolio).map (fun c => c.1)))

/-- Text of the non-fatal warning printed for missing symbols. -/
def warningMessage (missing : List String) : String :=
  "Warning: No historical data found for: " ++ String.intercalate ", " missing

/-- The weights array built over the restricted return columns: for each
column, the first allocation row with that symbol contributes its weight
(`.values[0]`), otherwise the preallocated 0 stays. -/
def rawWeights (historical : List (String × List ℚ)) (portfolio : List (String × ℚ)) :
    List ℚ :=
  (portfolioReturns historical portfolio).map (fun c =>
    match portfolio.find? (fun r => decide (r.1 = c.1)) with
    | some r => r.2
    | none => 0)

/-- `weights = weights / np.sum(weights)`, the renormalization taken when
the raw sum is positive. -/
def normalizedWeights (historical : List (String × List ℚ)) (portfolio : List (String × ℚ)) :
    List ℚ :=
  (rawWeights historical portfolio).map
    (fun w => w / (rawWeights historical portfolio).sum)

/-- `np.cumprod(1 + random_returns) - 1`. -/
def cumulativeReturns (rs : List ℚ) : List ℚ :=
  ((rs.scanl (fun acc r => acc * (1 + r)) 1).tail).map (fun x => x - 1)

/-- The drawdown scan: a running peak starting at 0 and only increasing,
and the largest `(peak - value) / (1 + peak)` seen along the walk. -/
def maxDrawdown (cum : List ℚ) : ℚ :=
  (cum.foldl
    (fun st v =>
      let peak := max st.1 v
      (peak, max st.2 ((peak - v) / (1 + peak))))
    ((0 : ℚ), (0 : ℚ))).2

/-- `np.dot(weights.T, np.dot(cov, weights))`: the quadratic form of the
sample covariance matrix of the restricted return columns. -/
def quadForm (retCols : List (List ℚ)) (w : List ℚ) : ℚ :=
  ((retCols.zip w).map (fun ci =>
    ((retCols.zip w).map (fun cj => ci.2 * cj.2 * sampleCov ci.1 cj.1)).sum)).sum

/-- `run_monte_carlo_simulation`.  Randomness is embedded explicitly: the
global numpy generator after `np.random.seed(s)` is the deterministic
stream `prng s`, and the unseeded generator is the ambient stream
`entropy`; a draw from Normal(mean, vol) is `mean + vol * stream i j` for
path `i`, day `j`.  `sqrtQ` is the numeric square root (the portfolio
volatility is a square root of a rational).  The function performs NO
validation of `num_simulations` or `time_horizon`: non-positive values
surface later as the numpy errors listed in `MCError`. -/
def run_monte_carlo_simulation (prng : ℤ → ℕ → ℕ → ℚ) (entropy : ℕ → ℕ → ℚ)
    (sqrtQ : ℚ → ℚ) (historical_data : List (String × List ℚ))
    (portfolio_data : List (String × ℚ)) (num_simulations time_horizon : ℤ)
    (random_seed : Option ℤ) : Except MCError Ensemble :=
  let rng : ℕ → ℕ → ℚ :=
    match random_seed with
    | some s => prng s
    | none => entropy
  let preturns := portfolioReturns historical_data portfolio_data
  let w0 := rawWeights historical_data portfolio_data
  if 0 < w0.sum then
    let weights := normalizedWeights historical_data portfolio_data
    let retCols := preturns.map (fun c => c.2)
    let mean_daily_return := ((retCols.zip weights).map (fun cw => npMean cw.1 * cw.2)).sum
    let portfolio_volatility := sqrtQ (quadForm retCols weights)
    if 1 ≤ num_simulations ∧ time_horizon < 0 then .error .negativeDimensions
    else if 1 ≤ num_simulations ∧ time_horizon = 0 then .error .emptyIndex
    else if num_simulations ≤ 0 then .error .zeroSizeReduce
    else
      let nsim := num_simulations.toNat
      let th := time_horizon.toNat
      let paths := (List.range nsim).map (fun i =>
        cumulativeReturns ((List.range th).map (fun j =>
          mean_daily_return + portfolio_volatility * rng i j)))
      .ok { simulations := paths
            final_returns := paths.map (fun p => p.getLastD 0)
            max_drawdowns := paths.map (fun p => -(maxDrawdown p))
            percentiles := ([5, 25, 50, 75, 95] : List ℚ).map (fun p =>
              (p, (List.range th).map (fun t =>
                percentileQ (paths.map (fun path => path.getD t 0)) p)))
            time_horizon := time_horizon
            mean_return := mean_daily_return
            volatility := portfolio_volatility
            weights := weights
            assets := preturns.map (fun c => c.1) }
  else .error .noValidWeights

/-! ## risk_metrics.py and utils/time_series.py -/

/-- The slice of the simulation-results dict the risk metrics read. -/
structure SimResults where
  final_returns : List ℚ
deriving DecidableEq

/-- `calculate_var(simulation_results, confidence_level, method)`.  The
method name is validated against the three admissible strings BEFORE
`final_returns` is read.  `z_sample` is the empirical quantile
`np.quantile(np.random.normal(0, 1, 10000), 1 - confidence_level)` that
the parametric and Cornish-Fisher branches draw (np.quantile raises when
its quantile argument leaves `[0, 1]`); `sqrtQ` is the numeric square
root feeding `np.std` and the pandas moment statistics. -/
def calculate_var (simulation_results : SimResults) (confidence_level : ℚ)
    (method : String) (sqrtQ : ℚ → ℚ) (z_sample : ℚ) : Except String ℚ :=
  if method ≠ "historical" ∧ method ≠ "parametric" ∧ method ≠ "cornish_fisher" then
    .error ("Invalid method: " ++ method ++
      ". Choose historical, parametric, or cornish_fisher")
  else
    let final_returns := simulation_results.final_returns
    if method = "historical" then
      (npPercentile final_returns (100 * (1 - confidence_level))).map (fun p => -p)
    else if method = "parametric" then
      if 1 - confidence_level < 0 ∨ 1 < 1 - confidence_level then
        .error "ValueError: quantiles must be in the range 0 to 1"
      else
        let m := npMean final_returns
        let s := npStd sqrtQ final_returns
        let z_score := -z_sample
        .ok (-(m + z_score * s))
    else
      if 1 - confidence_level < 0 ∨ 1 < 1 - confidence_level then
        .error "ValueError: quantiles must be in the range 0 to 1"
      else
        let m := npMean final_returns
        let s := npStd sqrtQ final_returns
        let skew := pdSkew sqrtQ final_returns
        let kurt := pdKurt sqrtQ final_returns
        let z_score := -z_sample
        let z_cf := z_score + (z_score ^ 2 - 1) * skew / 6 +
          (z_score ^ 3 - 3 * z_score) * kurt / 24 -
          (2 * z_score ^ 3 - 5 * z_score) * skew ^ 2 / 36
        .ok (-(m + z_cf * s))

/-- `calculate_expected_shortfall`: historical VaR at the same confidence,
then the mean of the losses strictly exceeding it, falling back to VaR
when no loss does.  (The copy in utils/time_series.py is line for line the
same computation.) -/
def calculate_expected_shortfall (simulation_results : SimResults)
    (confidence_level : ℚ) : Except String ℚ :=
  match npPercentile simulation_results.final_returns (100 * (1 - confidence_level)) with
  | .error e => .error e
  | .ok pv =>
    let var := -pv
    let losses := simulation_results.final_returns.map (fun x => -x)
    let conditional_losses := losses.filter (fun l => decide (var < l))
    if conditional_losses = [] then .ok var
    else .ok (npMean conditional_losses)

/-- The dict returned by `calculate_drawdown_metrics`. -/
structure DrawdownMetrics where
  avg_drawdown : ℚ
  max_drawdown : ℚ
  drawdown_at_risk : ℚ
  conditional_drawdown_at_risk : ℚ
deriving DecidableEq

/-- `calculate_drawdown_metrics(simulation_results, confidence_level)`:
average drawdown, worst drawdown magnitude, DaR as the negated percentile
of the stored (negative) max drawdowns, and CDaR.  In the degenerate case
where no path is strictly worse than `-DaR` the code assigns
`cdar = -dar`, the NEGATION of the drawdown-at-risk it reports. -/
def calculate_drawdown_metrics (max_drawdowns : List ℚ) (confidence_level : ℚ) :
    Except String DrawdownMetrics :=
  let avg_drawdown := npMean (max_drawdowns.map (fun x => -x))
  if max_drawdowns.length = 0 then
    .error "ValueError: zero-size array to reduction operation minimum which has no identity"
  else
    match npPercentile max_drawdowns (100 * (1 - confidence_level)) with
    | .error e => .error e
    | .ok pv =>
      let max_dd := (max_drawdowns.min?).getD 0
      let dar := -pv
      let conditional_drawdowns :=
        (max_drawdowns.filter (fun x => decide (x < -dar))).map (fun x => -x)
      let cdar := if conditional_drawdowns = [] then -dar else npMean conditional_drawdowns
      .ok { avg_drawdown := avg_drawdown
            max_drawdown := -max_dd
            drawdown_at_risk := dar
            conditional_drawdown_at_risk := cdar }

/-- `calculate_conditional_drawdown` from utils/time_series.py: the same
DaR and conditional mean, with the same `-dar` fallback. -/
def calculate_conditional_drawdown (max_drawdowns : List ℚ) (confidence_level : ℚ) :
    Except String ℚ :=
  match npPercentile max_drawdowns (100 * (1 - confidence_level)) with
  | .error e => .error e
  | .ok pv =>
    let dar := -pv
    let conditional_drawdowns :=
      (max_drawdowns.filter (fun x => decide (x < -dar))).map (fun x => -x)
    if conditional_drawdowns = [] then .ok (-dar)
    else .ok (npMean conditional_drawdowns)

/-! ## Helper lemmas -/

theorem pct_change_length : ∀ l : List ℚ, (pct_change l).length = l.length - 1
  | [] => rfl
  | [_] => rfl
  | p0 :: p1 :: rest => by
    simp only [pct_change, List.length_cons, pct_change_length (p1 :: rest)]
    omega

theorem reconstructFrom_length (rs : List ℚ) :
    ∀ p : ℚ, (reconstructFrom p rs).length = rs.length := by
  induction rs with
  | nil => intro p; rfl
  | cons r rest ih => intro p; simp only [reconstructFrom, List.length_cons, ih]

theorem reconstructPrices_length (s : ℚ) (rs : List ℚ) :
    (reconstructPrices s rs).length = rs.length := by
  cases rs with
  | nil => rfl
  | cons r rest => simp only [reconstructPrices, List.length_cons, reconstructFrom_length]

theorem adjustedColumn_length (vol adj : ℚ) : ∀ ps : List ℚ,
    (adjustedColumn vol adj ps).length = ps.length
  | [] => rfl
  | [_] => rfl
  | p0 :: p1 :: rest => by
    simp only [adjustedColumn, List.length_cons, reconstructPrices_length,
      List.length_map, pct_change_length]
    omega

/-- Compounding the raw simple returns of a nonzero price series starting
from its second entry reproduces the series: the heart of the Normal
Market identity. -/
theorem reconstructFrom_pct : ∀ (rest : List ℚ) (p : ℚ), p ≠ 0 → (∀ q ∈ rest, q ≠ 0) →
    reconstructFrom p (pct_change (p :: rest)) = rest
  | [], p, _, _ => rfl
  | q :: rest, p, hp, hq => by
    have hq0 : q ≠ 0 := hq q (List.mem_cons_self q rest)
    have hkey : p * (1 + (q / p - 1)) = q := by field_simp
    simp only [pct_change, reconstructFrom, hkey]
    exact congrArg (q :: ·) (reconstructFrom_pct rest q hq0
      (fun x hx => hq x (List.mem_cons_of_mem q hx)))

theorem adjustedColumn_one_zero : ∀ ps : List ℚ, (∀ p ∈ ps, p ≠ 0) →
    adjustedColumn 1 0 ps = ps
  | [], _ => rfl
  | [_], _ => rfl
  | p0 :: p1 :: rest, hp => by
    have hmap : ∀ l : List ℚ, l.map (fun r => r * 1 + 0 / 252) = l := by
      intro l; simp
    have hp1 : p1 ≠ 0 := hp p1 (List.mem_cons_of_mem p0 (List.mem_cons_self p1 rest))
    have hrest : ∀ q ∈ rest, q ≠ 0 := fun q hq =>
      hp q (List.mem_cons_of_mem p0 (List.mem_cons_of_mem p1 hq))
    simp only [adjustedColumn, hmap]
    simp only [pct_change, reconstructPrices]
    exact congrArg (fun l => p0 :: p1 :: l) (reconstructFrom_pct rest p1 hp1 hrest)

/-- Every impact factor of the Normal Market scenario is zero, so the
sector lookup returns zero whatever the sector. -/
theorem normal_impact_zero (k : String) :
    lookupQ scenarioNormalMarket.impact_factor k 0 = 0 := by
  unfold lookupQ
  cases h : scenarioNormalMarket.impact_factor.find? (fun e => e.1 == k) with
  | none => rfl
  | some e =>
    have he := List.mem_of_find?_eq_some h
    have : e.2 = 0 := by fin_cases he <;> rfl
    simp [this]

theorem mul_length_le_sum (v : ℚ) : ∀ l : List ℚ, (∀ x ∈ l, v ≤ x) → v * l.length ≤ l.sum
  | [], _ => by simp
  | x :: t, h => by
    have hx : v ≤ x := h x (List.mem_cons_self x t)
    have ht := mul_length_le_sum v t (fun y hy => h y (List.mem_cons_of_mem x hy))
    simp only [List.length_cons, List.sum_cons]
    push_cast
    nlinarith

/-- The mean of a nonempty list all of whose entries strictly exceed `v`
strictly exceeds `v`: the tail-mean argument behind the ES and CDaR
dominance facts. -/
theorem lt_mean_of_forall_lt (l : List ℚ) (v : ℚ) (hne : l ≠ [])
    (h : ∀ x ∈ l, v < x) : v < npMean l := by
  obtain ⟨x, t, rfl⟩ : ∃ x t, l = x :: t := by
    cases l with
    | nil => exact absurd rfl hne
    | cons x t => exact ⟨x, t, rfl⟩
  have hx : v < x := h x (List.mem_cons_self x t)
  have ht := mul_length_le_sum v t (fun y hy => le_of_lt (h y (List.mem_cons_of_mem x hy)))
  have hlen : (0 : ℚ) < ((x :: t).length : ℚ) := by
    simp only [List.length_cons]
    push_cast
    positivity
  rw [npMean, lt_div_iff₀ hlen]
  simp only [List.length_cons, List.sum_cons]
  push_cast
  nlinarith

theorem sum_map_div (l : List ℚ) (c : ℚ) : (l.map (fun x => x / c)).sum = l.sum / c := by
  induction l with
  | nil => simp
  | cons x t ih => simp only [List.map_cons, List.sum_cons, ih, add_div]

/-- On an association list with pairwise distinct keys, the key search
finds exactly the member carrying that key. -/
theorem find_entry_of_nodup : ∀ (l : List (String × ℚ)) (r : String × ℚ),
    (l.map (fun e => e.1)).Nodup → r ∈ l →
    l.find? (fun e => decide (e.1 = r.1)) = some r
  | [], r, _, hr => absurd hr (List.not_mem_nil r)
  | e :: t, r, hnd, hr => by
    rcases List.mem_cons.mp hr with heq | ht
    · subst heq
      exact List.find?_cons_of_pos t (by simp)
    · have hne : ¬(e.1 = r.1) := by
        intro hk
        rw [List.map_cons, List.nodup_cons] at hnd
        exact hnd.1 (hk ▸ List.mem_map_of_mem (fun x => x.1) ht)
      rw [List.find?_cons_of_neg t (by simpa using hne)]
      exact find_entry_of_nodup t r (by
        rw [List.map_cons, List.nodup_cons] at hnd
        exact hnd.2) ht

theorem rawWeights_nonneg (historical : List (String × List ℚ))
    (portfolio : List (String × ℚ)) (hnn : ∀ r ∈ portfolio, 0 ≤ r.2) :
    ∀ w ∈ rawWeights historical portfolio, 0 ≤ w := by
  intro w hw
  rw [rawWeights] at hw
  obtain ⟨col, _, hcol⟩ := List.mem_map.mp hw
  cases hfind : portfolio.find? (fun r => decide (r.1 = col.1)) with
  | none =>
    rw [hfind] at hcol
    simp only at hcol
    exact le_of_eq hcol
  | some r =>
    rw [hfind] at hcol
    exact hcol ▸ hnn r (List.mem_of_find?_eq_some hfind)

theorem rawWeights_sum_pos (historical : List (String × List ℚ))
    (portfolio : List (String × ℚ))
    (hnodup : (portfolio.map (fun r => r.1)).Nodup)
    (hnn : ∀ r ∈ portfolio, 0 ≤ r.2)
    (hpos : ∃ r ∈ portfolio, 0 < r.2 ∧ r.1 ∈ historical.map (fun c => c.1)) :
    0 < (rawWeights historical portfolio).sum := by
  obtain ⟨r, hr, hrw, hrh⟩ := hpos
  obtain ⟨c, hc, hc1⟩ := List.mem_map.mp hrh
  have hcol : (c.1, pct_change c.2) ∈ pct_change_table historical :=
    List.mem_map_of_mem (fun col => (col.1, pct_change col.2)) hc
  have hsym : c.1 ∈ portfolio.map (fun e => e.1) := by
    rw [hc1]
    exact List.mem_map_of_mem (fun e => e.1) hr
  have hmem : (c.1, pct_change c.2) ∈ portfolioReturns historical portfolio := by
    rw [portfolioReturns]
    exact List.mem_filter.mpr ⟨hcol, decide_eq_true hsym⟩
  have hfind : portfolio.find? (fun e => decide (e.1 = (c.1, pct_change c.2).1)) = some r := by
    have := find_entry_of_nodup portfolio r hnodup hr
    simpa [hc1] using this
  have hval : r.2 ∈ rawWeights historical portfolio := by
    rw [rawWeights]
    refine List.mem_map.mpr ⟨(c.1, pct_change c.2), hmem, ?_⟩
    rw [hfind]
  have hle := List.single_le_sum (rawWeights_nonneg historical portfolio hnn) r.2 hval
  linarith

theorem normalizedWeights_sum_one (historical : List (String × List ℚ))
    (portfolio : List (String × ℚ))
    (hsum : 0 < (rawWeights historical portfolio).sum) :
    (normalizedWeights historical portfolio).sum = 1 := by
  rw [normalizedWeights, sum_map_div]
  exact div_self (ne_of_gt hsum)

theorem foldl_reconstructStep_length (adjrets : List (Option ℚ)) :
    ∀ (rest : List ℕ) (st : List (Option ℚ) × ℕ),
    ((rest.foldl (reconstructStep adjrets) st).1).length = st.1.length
  | [], _ => rfl
  | j :: rest, st => by
    rw [List.foldl_cons]
    rw [foldl_reconstructStep_length adjrets rest]
    exact List.length_set st.1 j _

/-- The reconstruction loop writes only at existing positions, so every
column keeps its length whatever the return index is. -/
theorem reconstructOpt_length (cells adjrets : List (Option ℚ)) :
    ∀ idxs : List ℕ, (reconstructOpt cells adjrets idxs).length = cells.length
  | [] => rfl
  | i0 :: rest => by
    rw [reconstructOpt]
    rw [foldl_reconstructStep_length]
    exact List.length_set cells i0 _

/-! ## Claim C1 -/

/-- Claim C1, counterexample.  On the two-row price table `[100, 105]` for
the Financial instrument JPM under Market Crash, `apply_economic_scenario`
returns a table whose second-row price is still 105, not the claimed
`100 * (1 + (0.05 * 2.5 - 0.60 / 252))`: the reconstruction loop holds the
price at the first return date fixed at its original value, so the single
adjusted return is never applied. -/
theorem c1_counterexample :
    (apply_economic_scenario ⟨[0, 1], [("JPM", [100, 105])]⟩ scenarioMarketCrash).toOption.map
        (fun t => (t.cols.headD ("", [])).2.getD 1 0) = some 105 ∧
    (105 : ℚ) ≠ 100 * (1 + ((1 : ℚ)/20 * (5/2) - ((3 : ℚ)/5) / 252)) := by
  constructor
  · have hs : get_symbol_sector "JPM" = "Financial" := by decide
    norm_num [apply_economic_scenario, adjustedColumn, pct_change, reconstructPrices,
      hs, lookupQ, scenarioMarketCrash, List.find?, reconstructFrom, Except.toOption]
  · norm_num

/-- Claim C1, amended.  Applied to the two-row price table `[100, 105]` for
the Financial instrument JPM under the Market Crash scenario,
`apply_economic_scenario` returns the table unchanged: first-row price 100
and second-row price 105.  The adjusted return 0.05 * 2.5 - 0.60 / 252
would scale prices only from the third row onward, because the code
anchors the first return date at its original price. -/
theorem c1_two_row_table_unchanged :
    apply_economic_scenario ⟨[0, 1], [("JPM", [100, 105])]⟩ scenarioMarketCrash =
      .ok ⟨[0, 1], [("JPM", [100, 105])]⟩ := by
  have hs : get_symbol_sector "JPM" = "Financial" := by decide
  norm_num [apply_economic_scenario, adjustedColumn, pct_change, reconstructPrices,
    hs, lookupQ, scenarioMarketCrash, List.find?, reconstructFrom]

/-! ## Claim C2 -/

/-- Claim C2.  On `max_drawdowns = [-0.1, -0.1]` at confidence 0.95 the
conditional set is empty (no path is strictly worse than `-DaR`), and both
`calculate_drawdown_metrics` and `calculate_conditional_drawdown` return
the conditional drawdown-at-risk `-0.1 = -DaR`, the NEGATION of the
drawdown-at-risk `DaR = 0.1` they report — not DaR itself as the claim
(and the functions' own positive-magnitude convention) states. -/
theorem c2_cdar_fallback_is_negated_dar :
    calculate_drawdown_metrics [-1/10, -1/10] (19/20) =
      .ok { avg_drawdown := 1/10, max_drawdown := 1/10, drawdown_at_risk := 1/10,
            conditional_drawdown_at_risk := -1/10 } ∧
    calculate_conditional_drawdown [-1/10, -1/10] (19/20) = .ok (-1/10) ∧
    (-1/10 : ℚ) ≠ 1/10 := by
  refine ⟨?_, ?_, by norm_num⟩
  · norm_num [calculate_drawdown_metrics, npPercentile, percentileQ, npMean,
      List.insertionSort, List.orderedInsert, List.min?]
  · norm_num [calculate_conditional_drawdown, npPercentile, percentileQ,
      List.insertionSort, List.orderedInsert]

/-! ## Claim C3 -/

/-- Claim C3.  `generate_custom_scenario` does NOT leave the catalog
unchanged: because the Python code copies the base entry shallowly, the
nested `impact_factor` update writes through to `ECONOMIC_SCENARIOS`.
Customizing Normal Market with `impact_factor = ("Technology", -0.5)`
changes the catalog's own Normal Market Technology impact from 0 to
-0.5. -/
theorem c3_generate_custom_scenario_mutates_catalog :
    catalogImpact ECONOMIC_SCENARIOS "Normal Market" "Technology" = some 0 ∧
    (generate_custom_scenario ECONOMIC_SCENARIOS "Normal Market"
        (some ⟨none, none, none, none, some [("Technology", -1/2)]⟩)).toOption.map
      (fun p => catalogImpact p.2 "Normal Market" "Technology") = some (some (-1/2)) := by
  constructor
  · decide
  · norm_num [generate_custom_scenario, ECONOMIC_SCENARIOS, updateImpact, catalogImpact,
      lookupQ, CustomAdjustments.isEmpty, scenarioNormalMarket, List.find?, Except.toOption]

/-! ## Claim C4 -/

/-- Claim C4, counterexample.  On a single-row price table of positive
prices the Normal Market transform is not the identity: the return index
is empty after the first row drops, `returns.index[0]` raises an
IndexError, and no table is returned at all. -/
theorem c4_counterexample_single_row_errors :
    apply_economic_scenario ⟨[0], [("AAPL", [100])]⟩ scenarioNormalMarket =
      .error "IndexError: index 0 is out of bounds for axis 0 with size 0" := by
  norm_num [apply_economic_scenario]

/-- Claim C4, amended.  For every price table of positive prices with at
least two rows (or with no columns), applying the Normal Market scenario
(returns_adjustment 0, volatility_adjustment 1, all impact factors 0) with
`apply_economic_scenario` returns a table equal to the input — the
identity transform on every row, including the first — under exact
rational arithmetic.  A table with columns but fewer than two rows instead
raises an IndexError. -/
theorem c4_normal_market_identity (t : Table)
    (hrows : 2 ≤ t.dates.length ∨ t.cols = [])
    (hpos : ∀ c ∈ t.cols, ∀ p ∈ c.2, 0 < p) :
    apply_economic_scenario t scenarioNormalMarket = .ok t := by
  unfold apply_economic_scenario
  have hguard : ¬(t.cols ≠ [] ∧ t.dates.length < 2) := by
    rcases hrows with h | h
    · intro hc; omega
    · intro hc; exact hc.1 h
  rw [if_neg hguard]
  have hcols : t.cols.map (fun col =>
      let sector := get_symbol_sector col.1
      let sector_impact := lookupQ scenarioNormalMarket.impact_factor sector 0
      let total_returns_adj := scenarioNormalMarket.returns_adjustment + sector_impact
      (col.1, adjustedColumn scenarioNormalMarket.volatility_adjustment total_returns_adj
        col.2)) = t.cols := by
    have := List.map_congr_left (l := t.cols)
      (f := fun col =>
        (col.1, adjustedColumn scenarioNormalMarket.volatility_adjustment
          (scenarioNormalMarket.returns_adjustment +
            lookupQ scenarioNormalMarket.impact_factor (get_symbol_sector col.1) 0) col.2))
      (g := id) ?_
    · simpa using this
    · intro c hc
      beta_reduce
      have hzero := normal_impact_zero (get_symbol_sector c.1)
      have hvol : scenarioNormalMarket.volatility_adjustment = 1 := rfl
      have hradj : scenarioNormalMarket.returns_adjustment = 0 := rfl
      rw [hzero, hvol, hradj, add_zero]
      have hne : ∀ p ∈ c.2, p ≠ 0 := fun p hp => ne_of_gt (hpos c hc p hp)
      rw [adjustedColumn_one_zero c.2 hne]
      rfl
  simp only [hcols]

/-- Claim C4, witness: the identity on a concrete three-row positive
table. -/
theorem c4_normal_market_identity_witness :
    apply_economic_scenario ⟨[0, 1, 2], [("AAPL", [100, 110, 105])]⟩ scenarioNormalMarket =
      .ok ⟨[0, 1, 2], [("AAPL", [100, 110, 105])]⟩ :=
  c4_normal_market_identity ⟨[0, 1, 2], [("AAPL", [100, 110, 105])]⟩
    (Or.inl (by norm_num)) (by decide)

/-! ## Claim C5 -/

/-- Claim C5, counterexample.  With well-formed data and
`num_simulations = 0`, `run_monte_carlo_simulation` performs no input
validation: it runs the whole weight and moment estimation and then fails
inside `np.percentile` over the zero-size simulation stack — a bare
library error, not the function's only explicit validation error (the
no-valid-weights ValueError), and not any error naming the simulation
count. -/
theorem c5_counterexample_no_input_validation :
    run_monte_carlo_simulation (fun _ _ _ => 0) (fun _ _ => 0) (fun q => q)
      [("A", [100, 110, 105])] [("A", 1)] 0 21 none = .error .zeroSizeReduce ∧
    MCError.zeroSizeReduce ≠ MCError.noValidWeights := by
  constructor
  · norm_num [run_monte_carlo_simulation, rawWeights, portfolioReturns, pct_change_table,
      pct_change, List.find?]
  · decide

/-- Claim C5, amended.  For every call of `run_monte_carlo_simulation` with
`num_simulations ≤ 0` or `time_horizon ≤ 0`, the run aborts with an error
and no ensemble is produced — but the error is a low-level numpy error
(negative-dimension draw, empty-array indexing, or zero-size reduction)
raised after the estimation work, or the unrelated no-valid-weights check;
there is no descriptive input-validation error identifying the violated
invariant. -/
theorem c5_nonpositive_inputs_abort (prng : ℤ → ℕ → ℕ → ℚ) (entropy : ℕ → ℕ → ℚ)
    (sq : ℚ → ℚ) (historical : List (String × List ℚ)) (portfolio : List (String × ℚ))
    (nsim th : ℤ) (seed : Option ℤ) (h : nsim ≤ 0 ∨ th ≤ 0) :
    ∃ e, run_monte_carlo_simulation prng entropy sq historical portfolio nsim th seed =
      .error e := by
  rw [run_monte_carlo_simulation]
  by_cases hw : 0 < (rawWeights historical portfolio).sum
  · rw [if_pos hw]
    split_ifs with h1 h2 h3
    · exact ⟨.negativeDimensions, rfl⟩
    · exact ⟨.emptyIndex, rfl⟩
    · exact ⟨.zeroSizeReduce, rfl⟩
    · exfalso
      rcases h with h | h <;> omega
  · rw [if_neg hw]
    exact ⟨.noValidWeights, rfl⟩

/-- Claim C5, witness: a run with a negative simulation count errors out. -/
theorem c5_nonpositive_inputs_abort_witness :
    ∃ e, run_monte_carlo_simulation (fun _ _ _ => 0) (fun _ _ => 0) (fun q => q)
      [("A", [100, 110])] [("A", 1)] (-3) 21 none = .error e :=
  c5_nonpositive_inputs_abort (fun _ _ _ => 0) (fun _ _ => 0) (fun q => q)
    [("A", [100, 110])] [("A", 1)] (-3) 21 none (Or.inl (by norm_num))

/-! ## Claim C6 -/

/-- Claim C6.  For every portfolio with pairwise distinct symbols and
nonnegative weights in which at least one symbol with positive weight has
a price column, the renormalized weight vector sums to exactly 1 (hence to
1 within 1e-9); every allocation symbol without a price column lands in
`missingSymbols`, the list the non-fatal warning names; and whenever
`run_monte_carlo_simulation` returns an ensemble, its weight vector is
exactly that renormalized vector. -/
theorem c6_weight_invariant (historical : List (String × List ℚ))
    (portfolio : List (String × ℚ))
    (hnodup : (portfolio.map (fun r => r.1)).Nodup)
    (hnn : ∀ r ∈ portfolio, 0 ≤ r.2)
    (hpos : ∃ r ∈ portfolio, 0 < r.2 ∧ r.1 ∈ historical.map (fun c => c.1)) :
    (normalizedWeights historical portfolio).sum = 1 ∧
    (∀ s ∈ portfolio.map (fun r => r.1), s ∉ historical.map (fun c => c.1) →
      s ∈ missingSymbols historical portfolio) ∧
    (∀ prng entropy sq nsim th seed ens,
      run_monte_carlo_simulation prng entropy sq historical portfolio nsim th seed =
        .ok ens →
      ens.weights = normalizedWeights historical portfolio) := by
  have hsum := rawWeights_sum_pos historical portfolio hnodup hnn hpos
  refine ⟨normalizedWeights_sum_one historical portfolio hsum, ?_, ?_⟩
  · intro s hs hnot
    rw [missingSymbols]
    refine List.mem_filter.mpr ⟨hs, decide_eq_true ?_⟩
    intro hmem
    obtain ⟨c, hcmem, hc1⟩ := List.mem_map.mp hmem
    rw [portfolioReturns] at hcmem
    have hcpct := (List.mem_filter.mp hcmem).1
    obtain ⟨c0, hc0, hc0eq⟩ := List.mem_map.mp hcpct
    apply hnot
    refine List.mem_map.mpr ⟨c0, hc0, ?_⟩
    rw [← hc1, ← hc0eq]
  · intro prng entropy sq nsim th seed ens h
    rw [run_monte_carlo_simulation] at h
    rw [if_pos hsum] at h
    split_ifs at h with h1 h2 h3
    rw [← Except.ok.inj h]

/-- Claim C6, witness: the allocation `[(A, 0.5), (B, 0.5)]` with B absent
from the price table renormalizes to the single weight 1.0 for A, and the
warning list names exactly B. -/
theorem c6_weight_invariant_witness :
    (normalizedWeights [("A", [100, 110])] [("A", 1/2), ("B", 1/2)] = [1] ∧
      missingSymbols [("A", [100, 110])] [("A", 1/2), ("B", 1/2)] = ["B"]) ∧
    ((normalizedWeights [("A", [100, 110])] [("A", 1/2), ("B", 1/2)]).sum = 1 ∧
      (∀ s ∈ ([("A", (1:ℚ)/2), ("B", (1:ℚ)/2)].map (fun r => r.1)),
        s ∉ ([("A", [(100:ℚ), 110])].map (fun c => c.1)) →
        s ∈ missingSymbols [("A", [100, 110])] [("A", 1/2), ("B", 1/2)]) ∧
      (∀ prng entropy sq nsim th seed ens,
        run_monte_carlo_simulation prng entropy sq [("A", [100, 110])]
          [("A", 1/2), ("B", 1/2)] nsim th seed = .ok ens →
        ens.weights = normalizedWeights [("A", [100, 110])] [("A", 1/2), ("B", 1/2)])) :=
  ⟨⟨by norm_num [normalizedWeights, rawWeights, portfolioReturns, pct_change_table,
      pct_change, List.find?],
    by simp only [missingSymbols, portfolioReturns, pct_change_table, pct_change]; decide⟩,
   c6_weight_invariant [("A", [100, 110])] [("A", 1/2), ("B", 1/2)] (by decide)
     (by norm_num [List.forall_mem_cons])
     ⟨("A", 1/2), by simp, by norm_num, by decide⟩⟩

/-! ## Claim C7 -/

/-- Claim C7.  For every nonempty `final_returns` and confidence level in
(0, 1): historical VaR and Expected Shortfall both compute, ES ≥ VaR, ES
equals the mean of the losses strictly greater than VaR when that set is
nonempty, and equals VaR itself when it is empty (degenerate tail). -/
theorem c7_expected_shortfall_dominates_var (fr : List ℚ) (c : ℚ) (sq : ℚ → ℚ) (z : ℚ)
    (hne : fr ≠ []) (hc0 : 0 < c) (hc1 : c < 1) :
    ∃ v e, calculate_var ⟨fr⟩ c "historical" sq z = .ok v ∧
      calculate_expected_shortfall ⟨fr⟩ c = .ok e ∧ v ≤ e ∧
      ((fr.map (fun x => -x)).filter (fun l => decide (v < l)) = [] → e = v) ∧
      ((fr.map (fun x => -x)).filter (fun l => decide (v < l)) ≠ [] →
        e = npMean ((fr.map (fun x => -x)).filter (fun l => decide (v < l)))) := by
  have hlen : ¬(fr.length = 0) := by
    simpa [List.length_eq_zero] using hne
  have hbounds : ¬(100 * (1 - c) < 0 ∨ 100 < 100 * (1 - c)) := by
    push_neg
    constructor <;> nlinarith
  have hperc : npPercentile fr (100 * (1 - c)) = .ok (percentileQ fr (100 * (1 - c))) := by
    unfold npPercentile
    rw [if_neg hlen, if_neg hbounds]
  set v := -percentileQ fr (100 * (1 - c)) with hv
  have hcv : calculate_var ⟨fr⟩ c "historical" sq z = .ok v := by
    unfold calculate_var
    rw [if_neg (by simp), if_pos rfl]
    simp [hperc, Except.map]
  set conditional := (fr.map (fun x => -x)).filter (fun l => decide (v < l)) with hcond
  by_cases hemp : conditional = []
  · refine ⟨v, v, hcv, ?_, le_refl v, fun _ => rfl, fun hne2 => absurd hemp hne2⟩
    unfold calculate_expected_shortfall
    rw [hperc]
    simp only [← hv, ← hcond, if_pos hemp]
  · have hall : ∀ x ∈ conditional, v < x := by
      intro x hx
      rw [hcond] at hx
      have := (List.mem_filter.mp hx).2
      exact of_decide_eq_true this
    have hmean := lt_mean_of_forall_lt conditional v hemp hall
    refine ⟨v, npMean conditional, hcv, ?_, le_of_lt hmean, fun hx => absurd hx hemp,
      fun _ => rfl⟩
    unfold calculate_expected_shortfall
    rw [hperc]
    simp only [← hv, ← hcond, if_neg hemp]

/-- Claim C7, witness at `final_returns = [0.1, -0.2]`, confidence 0.95:
VaR = 0.185, ES = 0.2 ≥ VaR. -/
theorem c7_expected_shortfall_dominates_var_witness :
    ∃ v e, calculate_var ⟨[1/10, -1/5]⟩ (19/20) "historical" (fun q => q) 0 = .ok v ∧
      calculate_expected_shortfall ⟨[1/10, -1/5]⟩ (19/20) = .ok e ∧ v ≤ e ∧
      (([(1:ℚ)/10, -1/5].map (fun x => -x)).filter (fun l => decide (v < l)) = [] →
        e = v) ∧
      (([(1:ℚ)/10, -1/5].map (fun x => -x)).filter (fun l => decide (v < l)) ≠ [] →
        e = npMean (([(1:ℚ)/10, -1/5].map (fun x => -x)).filter (fun l => decide (v < l)))) :=
  c7_expected_shortfall_dominates_var [1/10, -1/5] (19/20) (fun q => q) 0
    (by decide) (by norm_num) (by norm_num)

/-! ## Claim C8 -/

/-- Claim C8.  Two calls of `run_monte_carlo_simulation` with identical
historical data, portfolio data, simulation count and horizon, and the
same non-None seed produce identical results — every field of the
ensemble, so in particular the simulations, final_returns, max_drawdowns
and all percentile curves — whatever ambient entropy each call would
otherwise have drawn from: with a seed, the generator state is a function
of the seed alone. -/
theorem c8_seeded_runs_reproducible (prng : ℤ → ℕ → ℕ → ℚ)
    (entropy1 entropy2 : ℕ → ℕ → ℚ) (sq : ℚ → ℚ)
    (historical : List (String × List ℚ)) (portfolio : List (String × ℚ))
    (nsim th : ℤ) (s : ℤ) :
    run_monte_carlo_simulation prng entropy1 sq historical portfolio nsim th (some s) =
    run_monte_carlo_simulation prng entropy2 sq historical portfolio nsim th (some s) := rfl

/-! ## Claim C9 -/

/-- Claim C9, counterexample.  On a three-row table holding a complete
positive column next to a fully-missing column, `apply_economic_scenario`
does not return a table at all: `dropna()` drops every row (the missing
column's returns are all NaN), the return index is empty, and
`returns.index[0]` raises an IndexError — although the table is a
well-formed price table of the spec's domain and has more than two
rows. -/
theorem c9_counterexample_missing_column_errors :
    apply_economic_scenario_opt ⟨[0, 1, 2],
        [("AAPL", [some 100, some 110, some 105]), ("GS", [none, none, none])]⟩
        scenarioMarketCrash =
      .error "IndexError: index 0 is out of bounds for axis 0 with size 0" := by
  simp only [apply_economic_scenario_opt]
  rw [if_pos ⟨by simp, by decide⟩]

/-- Claim C9, amended.  For every input price table — missing cells
included — whose return index after `pct_change().dropna()` is nonempty
(or that has no columns at all), and every scenario parameter set,
`apply_economic_scenario` returns a table with exactly the input's date
index and instrument columns in the same order — no row or column dropped,
added or reordered, each column keeping its length — and, the embedding
being pure because the code writes only into its own copy, the input table
is unchanged.  When the table has columns but the return index is empty —
fewer than two rows, or any fully-missing column (one such column empties
the whole index, since `dropna` drops a row when any column is NaN there),
or a column whose first present price sits in the last row — the function
instead raises an IndexError and returns nothing. -/
theorem c9_shape_preserved_general (t : PriceTable) (params : Scenario)
    (h : t.cols = [] ∨ returnIndexOpt t.cols t.dates.length ≠ []) :
    ∃ adjusted, apply_economic_scenario_opt t params = .ok adjusted ∧
      adjusted.dates = t.dates ∧
      adjusted.cols.map (fun c => c.1) = t.cols.map (fun c => c.1) ∧
      adjusted.cols.map (fun c => c.2.length) = t.cols.map (fun c => c.2.length) := by
  simp only [apply_economic_scenario_opt]
  have hguard : ¬(t.cols ≠ [] ∧ returnIndexOpt t.cols t.dates.length = []) := by
    rcases h with h | h
    · intro hc; exact hc.1 h
    · intro hc; exact h hc.2
  rw [if_neg hguard]
  refine ⟨_, rfl, rfl, ?_, ?_⟩
  · rw [List.map_map]
    rfl
  · rw [List.map_map]
    refine List.map_congr_left ?_
    intro c hc
    beta_reduce
    simp only [Function.comp_apply, reconstructOpt_length]

/-- Claim C9, witness: shape preservation on a concrete three-row table
whose second column has a missing leading cell — its return index is the
single last row, nonempty, so the transform returns a table with the same
dates, column names and column lengths. -/
theorem c9_shape_preserved_general_witness :
    ∃ adjusted, apply_economic_scenario_opt ⟨[0, 1, 2],
        [("AAPL", [some 100, some 110, some 105]), ("GS", [none, some 50, some 55])]⟩
        scenarioPandemic = .ok adjusted ∧
      adjusted.dates = [0, 1, 2] ∧
      adjusted.cols.map (fun c => c.1) =
        [("AAPL", [some (100:ℚ), some 110, some 105]),
         ("GS", [none, some (50:ℚ), some 55])].map (fun c => c.1) ∧
      adjusted.cols.map (fun c => c.2.length) =
        [("AAPL", [some (100:ℚ), some 110, some 105]),
         ("GS", [none, some (50:ℚ), some 55])].map (fun c => c.2.length) :=
  c9_shape_preserved_general ⟨[0, 1, 2],
    [("AAPL", [some 100, some 110, some 105]), ("GS", [none, some 50, some 55])]⟩
    scenarioPandemic (Or.inr (by decide))

/-! ## Claim C10 -/

/-- Claim C10, counterexample.  With empty `final_returns` the historical
method does not return a float: `np.percentile` raises an IndexError, so
one of the three valid method names fails to return a value. -/
theorem c10_counterexample_empty_returns_raises :
    calculate_var ⟨[]⟩ (19/20) "historical" (fun q => q) 0 =
      .error "IndexError: cannot do a non-empty take from an empty axes" := by
  norm_num [calculate_var, npPercentile, Except.map]

/-- Claim C10, amended.  `calculate_var` rejects every method name outside
historical / parametric / cornish_fisher with the invalid-method
ValueError, and the rejection is independent of the simulation data (the
check precedes the read of `final_returns` — the error value mentions no
data).  The parametric and Cornish-Fisher methods return a value whenever
`0 ≤ confidence_level ≤ 1`; the historical method returns a value when in
addition `final_returns` is nonempty (with empty data it raises the
np.percentile IndexError instead). -/
theorem c10_method_validation (res : SimResults) (c : ℚ) (sq : ℚ → ℚ) (z : ℚ) :
    (∀ m : String, m ≠ "historical" → m ≠ "parametric" → m ≠ "cornish_fisher" →
      calculate_var res c m sq z =
        .error ("Invalid method: " ++ m ++
          ". Choose historical, parametric, or cornish_fisher")) ∧
    (0 ≤ c → c ≤ 1 →
      (∃ v, calculate_var res c "parametric" sq z = .ok v) ∧
      (∃ v, calculate_var res c "cornish_fisher" sq z = .ok v) ∧
      (res.final_returns ≠ [] → ∃ v, calculate_var res c "historical" sq z = .ok v)) := by
  constructor
  · intro m h1 h2 h3
    rw [calculate_var, if_pos ⟨h1, h2, h3⟩]
  · intro hc0 hc1
    have hq : ¬(1 - c < 0 ∨ 1 < 1 - c) := by
      push_neg
      constructor <;> linarith
    refine ⟨?_, ?_, ?_⟩
    · exact ⟨_, by rw [calculate_var, if_neg (by simp), if_neg (by decide), if_pos rfl,
        if_neg hq]⟩
    · exact ⟨_, by rw [calculate_var, if_neg (by simp), if_neg (by decide),
        if_neg (by decide), if_neg hq]⟩
    · intro hne
      have hlen : ¬(res.final_returns.length = 0) := by
        simpa [List.length_eq_zero] using hne
      have hbounds : ¬(100 * (1 - c) < 0 ∨ 100 < 100 * (1 - c)) := by
        push_neg
        constructor <;> nlinarith
      refine ⟨-(percentileQ res.final_returns (100 * (1 - c))), ?_⟩
      rw [calculate_var, if_neg (by simp), if_pos rfl]
      rw [npPercentile, if_neg hlen, if_neg hbounds]
      rfl

/-- Claim C10, witness: on concrete data the historical method returns a
value and an unknown method name is rejected with the invalid-method
error. -/
theorem c10_method_validation_witness :
    (∃ v, calculate_var ⟨[1/10, -1/5]⟩ (19/20) "historical" (fun q => q) 0 = .ok v) ∧
    calculate_var ⟨[1/10, -1/5]⟩ (19/20) "bogus" (fun q => q) 0 =
      .error "Invalid method: bogus. Choose historical, parametric, or cornish_fisher" :=
  ⟨((c10_method_validation ⟨[1/10, -1/5]⟩ (19/20) (fun q => q) 0).2 (by norm_num)
      (by norm_num)).2.2 (by decide),
   (c10_method_validation ⟨[1/10, -1/5]⟩ (19/20) (fun q => q) 0).1 "bogus"
     (by decide) (by decide) (by decide)⟩
